import Mathlib

/-!
Verification of the Mini-Arima Model Orchestration & Availability Engine.

Shallow embedding of the circuit-breaker health registry
(`app/services/system_service.py`), the quota ledger
(`app/database.py`, `app/services/user_service.py`), the ensemble
orchestrator (`app/services/ai_service.py`) and the chat handlers
(`app/handlers/chat.py`).  Python dicts are modelled as association
lists, `None`-able values as `Option`, wall-clock instants as integer
seconds, and raised exceptions as explicit outcome constructors.
-/

namespace MiniArima

/-! ## Static configuration (`app/config.py`) -/

def MODEL_CATEGORIES : List (String × List String) :=
  [("OpenAI", ["gpt-4.5-preview", "gpt-4.1", "o4-mini", "chatgpt-4o-latest"]),
   ("DeepSeek", ["deepseek-chat-v3-0324", "deepseek-r1-0528"]),
   ("Meta", ["llama-3.1-nemotron-ultra-253b-v1"]),
   ("Alibaba", ["qwen3-235b-a22b"]),
   ("Microsoft", ["phi-4-reasoning-plus"]),
   ("xAI", ["grok-3", "grok-3-mini"]),
   ("Anthropic", ["claude-3.7-sonnet"])]

def IMAGE_MODELS : List String := ["gpt-image-1", "flux-1.1-pro"]

def MAX_MODE_PARTICIPANTS : List String :=
  ["grok-3", "gpt-4.1", "deepseek-chat-v3-0324", "gpt-4.5-preview",
   "chatgpt-4o-latest", "claude-3.7-sonnet"]

def MAX_MODE_ARBITER : String := "deepseek-r1-0528"

/-- `LIMITS.get(level, \x7b"daily": 0, "max_mode": 0\x7d)` from `app/config.py`:
tier -> (daily normal quota, daily Max-Mode quota), defaulting to (0, 0). -/
def LIMITS (level : Nat) : Nat × Nat :=
  match level with
  | 0 => (3, 0)
  | 1 => (40, 0)
  | 2 => (100, 0)
  | 3 => (100, 5)
  | _ => (0, 0)

def REWARD_LIMIT : Nat := 7

/-! ## Health registry state

`GLOBAL_CACHE` in `bot.py` is a dict whose `"model_status"` entry is
`TTLCache(maxsize=1, ttl=600)` from `cachetools`.  `cache.get("model_status")`
yields that TTL cache, or `None` when the entry is absent (`Option`).
With `maxsize=1` and the default per-entry size of 1, the TTL cache can
hold at most ONE of its two keys `"statuses"` and `"last_report"`:
every `__setitem__` at capacity evicts the previously held entry
(`popitem`).  So the slot is empty, or holds the statuses dict, or
holds the report text.  Time-based expiry (`ttl=600`) only removes the
held entry — the same observable effect as an eviction — and is not
needed to settle any claim, so the model keeps a fixed instant. -/

inductive TTLSlot where
  | empty
  | statuses (sts : List (String × String))
  | lastReport (report : String)
deriving Repr, DecidableEq

structure Cache where
  modelStatus : Option TTLSlot
deriving Repr, DecidableEq

/-- `model_status_cache.get("statuses", \x7b\x7d)`: the statuses dict when
the slot currently holds the `"statuses"` key, the default `\x7b\x7d`
otherwise. -/
def cachedStatuses : TTLSlot → List (String × String)
  | .statuses sts => sts
  | _ => []

/-- `model_status_cache["statuses"] = sts` on the maxsize-1 TTL cache:
the insert evicts whatever single entry was held before. -/
def ttlSetStatuses (sts : List (String × String)) : TTLSlot → TTLSlot :=
  fun _ => .statuses sts

/-- `model_status_cache["last_report"] = report` on the maxsize-1 TTL
cache: the insert evicts whatever single entry was held before — in
particular a `"statuses"` entry written on the immediately preceding
line. -/
def ttlSetLastReport (report : String) : TTLSlot → TTLSlot :=
  fun _ => .lastReport report

/-- Python dict assignment `d[k] = v` on an association list: overwrite
the first binding of `k` in place, append a new binding otherwise. -/
def setStatus (k v : String) : List (String × String) → List (String × String)
  | [] => [(k, v)]
  | (k', v') :: rest =>
      if k' = k then (k', v) :: rest else (k', v') :: setStatus k v rest

/-- `is_model_available(model_name, cache)`: `True` when the
`"model_status"` cache entry is absent, otherwise
`statuses.get(model_name, 'OK') == 'OK'` over the currently cached
statuses (the default empty dict when the slot holds `"last_report"` or
nothing). -/
def is_model_available (modelName : String) (cache : Cache) : Bool :=
  match cache.modelStatus with
  | none => true
  | some slot => ((cachedStatuses slot).lookup modelName).getD "OK" == "OK"

/-- `set_model_failed_in_cache(model_name, cache)`: no-op when the
`"model_status"` entry is absent; otherwise reads the cached statuses
(default `\x7b\x7d`) and, unless the model is already `'FAILED'`, writes the
updated dict back under `"statuses"`. -/
def set_model_failed_in_cache (modelName : String) (cache : Cache) : Cache :=
  match cache.modelStatus with
  | none => cache
  | some slot =>
      let sts := cachedStatuses slot
      if sts.lookup modelName = some "FAILED" then cache
      else ⟨some (ttlSetStatuses (setStatus modelName "FAILED" sts) slot)⟩

/-- The distinct text models probed by `scheduled_model_test`
(`list(set(model for models in MODEL_CATEGORIES.values() for model in models))`). -/
def allTextModels : List String :=
  ((MODEL_CATEGORIES.map Prod.snd).flatten).eraseDups

/-- All models covered by one probe round: text models plus
`list(set(IMAGE_MODELS))`. -/
def probedModels : List String := allTextModels ++ IMAGE_MODELS.eraseDups

/-- Cache effect of `scheduled_model_test` (system_service.py lines
120-123): when the `"model_status"` entry is present, the round's
`current_statuses` dict (one status per probed model) is installed
under `"statuses"`, and then the report text is installed under
`"last_report"` — which, the TTL cache holding at most one entry,
evicts the statuses written on the previous line. -/
def apply_probe_results (statusOf : String → String) (report : String)
    (cache : Cache) : Cache :=
  match cache.modelStatus with
  | none => cache
  | some slot =>
      ⟨some (ttlSetLastReport report
        (ttlSetStatuses (probedModels.map (fun m => (m, statusOf m))) slot))⟩

/-! ## Startup reconcile (`startup_model_check`)

`db.get_system_state(key)` returns `None` or a `(value, updated_at)`
row (`Option (String × String)`).  `datetime.fromisoformat` and
`json.loads` can raise; they are modelled as explicit parsing functions
returning `Option` (a `none` result stands for the caught
`ValueError`/`TypeError`/`JSONDecodeError`).  Instants are integer
seconds, so the freshness threshold `timedelta(minutes=10)` is `600`. -/

inductive StartupAction where
  | adopt
  | probe
deriving Repr, DecidableEq

/-- `startup_model_check(ai_client, db, cache)`, reduced to its control
flow and cache effect: adopt the persisted snapshot and return, or fall
through to a full `scheduled_model_test` round (the probe round's own
cache/DB writes are modelled by `apply_probe_results`).  The adopt
branch (system_service.py lines 149-150) installs the parsed snapshot
under `"statuses"` and then the persisted report under `"last_report"`
— the second write evicting the first from the maxsize-1 TTL cache. -/
def startup_model_check
    (parseIso : String → Option Int)
    (parseJson : String → Option (List (String × String)))
    (now : Int)
    (statusState reportState : Option (String × String))
    (cache : Cache) : StartupAction × Cache :=
  match statusState, reportState with
  | some (statusJson, tsStr), some (reportText, _) =>
      match parseIso tsStr with
      | some ts =>
          if now - ts < 600 then
            match cache.modelStatus with
            | some slot =>
                match parseJson statusJson with
                | some sts =>
                    (.adopt,
                     ⟨some (ttlSetLastReport reportText (ttlSetStatuses sts slot))⟩)
                | none => (.probe, cache)
            | none => (.adopt, cache)
          else (.probe, cache)
      | none => (.probe, cache)
  | _, _ => (.probe, cache)

/-! ## User level and limits (`app/services/user_service.py`)

`db.get_user(user_id)` returns `None` or the user row; only the columns
the limit logic reads are modelled.  `user_id in ADMIN_IDS` is the
boolean `isAdmin`.  `subscription_end` is an ISO string column that can
be `NULL` (`Option`), empty, or unparsable (`parseIso` returning `none`
stands for the caught `ValueError`/`TypeError`). -/

structure UserRow where
  level : Nat
  subscriptionEnd : Option String
  isBlocked : Bool
  hasRewardedBonus : Bool
deriving Repr, DecidableEq

/-- A resolved daily limit: `float('inf')` for administrators is the
`unlimited` sentinel, every other limit is a natural number. -/
inductive Quota where
  | finite (n : Nat)
  | unlimited
deriving Repr, DecidableEq

/-- The admission comparison `requests_today >= daily_limit`;
`n >= float('inf')` is always `False` in Python. -/
def quotaReached (used : Nat) : Quota → Bool
  | .finite n => decide (n ≤ used)
  | .unlimited => false

/-- `get_user_level(user_id, db)`: returns the resolved level together
with a flag recording whether `db.update_subscription(user_id, 0)` (the
lazy expiry downgrade write-back) was issued. -/
def get_user_level (isAdmin : Bool) (user : Option UserRow)
    (parseIso : String → Option Int) (now : Int) : Nat × Bool :=
  if isAdmin then (3, false)
  else
    match user with
    | none => (0, false)
    | some u =>
        match u.subscriptionEnd with
        | some endStr =>
            if endStr ≠ "" ∧ 0 < u.level then
              match parseIso endStr with
              | some endDate =>
                  if endDate < now then (0, true) else (u.level, false)
              | none => (u.level, false)
            else (u.level, false)
        | none => (u.level, false)

/-- `details[8]` (`has_rewarded_bonus`) guarded by `if details and ...`. -/
def userHasBonus : Option UserRow → Bool
  | some u => u.hasRewardedBonus
  | none => false

/-- `get_user_limits(user_id, db)`: `(daily_limit, max_mode_limit)` plus
the downgrade write-back flag propagated from `get_user_level`.  The
fresh `db.get_user_details` read inside the `level == 0` branch sees the
same `has_rewarded_bonus` value as the input row, since the only
intervening write (`update_subscription`) does not touch that column. -/
def get_user_limits (isAdmin : Bool) (user : Option UserRow)
    (parseIso : String → Option Int) (now : Int) : (Quota × Quota) × Bool :=
  let lv := get_user_level isAdmin user parseIso now
  if isAdmin then ((.unlimited, .unlimited), lv.2)
  else if lv.1 == 0 && userHasBonus user then
    ((.finite REWARD_LIMIT, .finite 0), lv.2)
  else
    ((.finite (LIMITS lv.1).1, .finite (LIMITS lv.1).2), lv.2)

/-! ## Requests ledger (`app/database.py`)

The `requests` table is a list of rows; `request_date` is the calendar
day `datetime.now(MSK_TZ).date()`, modelled as an integer day key
computed from the fixed MSK reference clock and passed explicitly. -/

structure RequestRow where
  userId : Nat
  model : String
  requestDate : Int
  isMaxMode : Bool
deriving Repr, DecidableEq

/-- The SQL row filter of `get_user_requests_today`:
`user_id = ? AND request_date = ? AND is_max_mode = ?`. -/
def matchesToday (userId : Nat) (today : Int) (isMaxMode : Bool)
    (r : RequestRow) : Bool :=
  r.userId == userId && r.requestDate == today && r.isMaxMode == isMaxMode

/-- `get_user_requests_today(user_id, is_max_mode)`: `SELECT COUNT(*)`
over the rows for this user, today's MSK date and this mode. -/
def get_user_requests_today (db : List RequestRow) (userId : Nat)
    (today : Int) (isMaxMode : Bool) : Nat :=
  (db.filter (matchesToday userId today isMaxMode)).length

/-- `add_request(user_id, model, is_max_mode)`: appends one row dated
with the current MSK day. -/
def add_request (db : List RequestRow) (userId : Nat) (model : String)
    (today : Int) (isMaxMode : Bool) : List RequestRow :=
  db ++ [⟨userId, model, today, isMaxMode⟩]

/-! ## Ensemble orchestrator (`app/services/ai_service.py`) -/

/-- Outcome of one `get_simple_response` call against one model: a text
payload, a response with no choices or `None` content (which the
function coerces to the empty string), or a raised exception carrying
its Python type name. -/
inductive CallOutcome where
  | text (s : String)
  | noContent
  | exc (typeName : String)
deriving Repr, DecidableEq

/-- The string `get_simple_response` returns; `none` when it raises. -/
def simpleResponseText : CallOutcome → Option String
  | .text s => some s
  | .noContent => some ""
  | .exc _ => none

/-- `_get_participant_response`: a raised exception becomes the
placeholder error string tagged with the exception type name; any
returned text (including the empty string for a no-content response) is
passed through unchanged.  Since this never returns `None`, the
`response_text is not None` guard in `get_max_mode_response` is inert
and the modelled answer is used as `safe_response_text` directly. -/
def participantAnswer : CallOutcome → String
  | .text s => s
  | .noContent => ""
  | .exc n => "ОШИБКА: Модель не смогла обработать запрос. (" ++ n ++ ")"

/-- `aiogram.utils.markdown.hcode`. -/
def hcode (s : String) : String := "<code>" ++ s ++ "</code>"

/-- The labeled per-participant block appended to the arbiter
meta-prompt. -/
def participantLine (model resp : String) : String :=
  "\n**Ответ от модели (" ++ hcode model ++ "):**\n" ++ resp ++ "\n---"

/-- The `RuntimeError` message raised when zero participants counted as
successful. -/
def ALL_FAILED_MESSAGE : String :=
  "К сожалению, все модели-участники не смогли дать ответ. Попробуйте позже."

/-- The `RuntimeError` message raised when the arbiter call fails. -/
def ARBITER_FAILED_MESSAGE : String :=
  "Модель-арбитр (" ++ MAX_MODE_ARBITER ++ ") не смогла обработать ответы. Попробуйте позже."

structure MaxModeRun where
  result : Except String String
  arbiterCalled : Bool
  results : List (String × String)
  promptLines : List String
deriving Repr

/-- Python `s.startswith(pre)`: character-level prefix test. -/
def startswith (pre s : String) : Bool := pre.data.isPrefixOf s.data

/-- `participant_results`: one `(model, answer)` pair per entry of
`MAX_MODE_PARTICIPANTS`, in order. -/
def participantResults (outcomes : String → CallOutcome) : List (String × String) :=
  MAX_MODE_PARTICIPANTS.map (fun m => (m, participantAnswer (outcomes m)))

/-- `successful_responses`: the number of answers not carrying the
`"ОШИБКА:"` tag. -/
def successfulCount (outcomes : String → CallOutcome) : Nat :=
  (participantResults outcomes).countP (fun r => !(startswith "ОШИБКА:" r.2))

/-- `get_max_mode_response`: gathers one answer per participant in
`MAX_MODE_PARTICIPANTS`, appends their labeled blocks to the meta-prompt
(the fixed instruction header and the user's prompt are unchanged by the
participant outcomes and are omitted), counts as successful every answer
that does not start with `"ОШИБКА:"`, raises the all-failed error before
any arbiter call when that count is zero, and otherwise forwards the
meta-prompt to the arbiter, mapping an arbiter exception to the
arbiter-failed error. -/
def get_max_mode_response (outcomes : String → CallOutcome)
    (arbiter : CallOutcome) : MaxModeRun :=
  if successfulCount outcomes == 0 then
    ⟨.error ALL_FAILED_MESSAGE, false, participantResults outcomes,
     (participantResults outcomes).map (fun r => participantLine r.1 r.2)⟩
  else
    match simpleResponseText arbiter with
    | some t =>
        ⟨.ok t, true, participantResults outcomes,
         (participantResults outcomes).map (fun r => participantLine r.1 r.2)⟩
    | none =>
        ⟨.error ARBITER_FAILED_MESSAGE, true, participantResults outcomes,
         (participantResults outcomes).map (fun r => participantLine r.1 r.2)⟩

/-! ## Chat handlers (`app/handlers/chat.py`)

Each handler is reduced to its observable effect trace: whether the
backend call was dispatched, whether `db.add_request` ran, whether the
`animate_waiting` background task was started and later cancelled, and
whether the runtime circuit breaker fired.  A successful dispatch path
cancels the animation and records usage before the final
`msg.edit_text`; a Telegram send failure after that lands in the generic
`except` with the animation already cancelled, so the trace fields are
unaffected. -/

inductive BackendCall where
  | success (text : String)
  | handledError (msg : String)
  | otherError (msg : String)
deriving Repr, DecidableEq

structure ChatTrace where
  backendCalled : Bool
  addRequestCalled : Bool
  animationStarted : Bool
  animationCancelled : Bool
  markFailedCalled : Bool
deriving Repr, DecidableEq

/-- `handle_chat_message`: blocked check, admission check
(`requests_today >= daily_limit`), availability check, then the dispatch
with its three exit arms (`success` / `except (APIError, RuntimeError)`
/ `except Exception`). -/
def handle_chat_message (blocked : Bool) (dailyLimit : Quota)
    (requestsToday : Nat) (modelAvailable : Bool)
    (backend : BackendCall) : ChatTrace :=
  if blocked then ⟨false, false, false, false, false⟩
  else if quotaReached requestsToday dailyLimit then ⟨false, false, false, false, false⟩
  else if !modelAvailable then ⟨false, false, false, false, false⟩
  else
    match backend with
    | .success _ => ⟨true, true, true, true, false⟩
    | .handledError _ => ⟨true, false, true, true, true⟩
    | .otherError _ => ⟨true, false, true, true, false⟩

/-- `handle_max_mode_message`: all-participants-and-arbiter availability
check, admission check against the Max-Mode limit, then the ensemble
dispatch with its three exit arms (`success` / `except RuntimeError` /
`except Exception`; no circuit-breaker call in this handler). -/
def handle_max_mode_message (modelsAvailable : Bool) (maxModeLimit : Quota)
    (requestsToday : Nat) (backend : BackendCall) : ChatTrace :=
  if !modelsAvailable then ⟨false, false, false, false, false⟩
  else if quotaReached requestsToday maxModeLimit then ⟨false, false, false, false, false⟩
  else
    match backend with
    | .success _ => ⟨true, true, true, true, false⟩
    | .handledError _ => ⟨true, false, true, true, false⟩
    | .otherError _ => ⟨true, false, true, true, false⟩

end MiniArima

namespace MiniArima

/-! ## Claim theorems: startup reconcile -/

/-- C5 (code bug, failing input): both system-state rows are present,
the snapshot — reporting `grok-3` as FAILED — is parsable and
timestamped 300 s (5 minutes) before startup, and the `model_status`
cache entry is present.  The startup check does take the adopt branch
and skips the probe round, as the claim requires; but the adopt
branch's `last_report` write (system_service.py line 150) evicts the
snapshot installed on line 149 from the maxsize-1 TTL cache, so the
post-state holds only the report text and the snapshot's FAILED model
reads as available — the persisted snapshot is never in effect,
contradicting the claimed adoption. -/
theorem C5_adopt_branch_evicts_snapshot :
    startup_model_check (fun _ => some 0) (fun _ => some [("grok-3", "FAILED")])
        300 (some ("snap", "ts")) (some ("report", "ts2")) ⟨some .empty⟩
      = (.adopt, ⟨some (.lastReport "report")⟩) ∧
    is_model_available "grok-3"
      (startup_model_check (fun _ => some 0)
          (fun _ => some [("grok-3", "FAILED")]) 300
          (some ("snap", "ts")) (some ("report", "ts2")) ⟨some .empty⟩).2
      = true :=
  ⟨rfl, rfl⟩

/-! ## Claim theorems: health registry -/

/-- C7: `is_model_available` is fail-open — for a model never probed and
never marked failed (absent from the cached statuses map, or with the
whole `model_status` cache entry absent, in which case the hypothesis is
vacuous), it returns `true`. -/
theorem C7_fail_open_default (m : String) (cache : Cache)
    (h : ∀ slot ∈ cache.modelStatus, (cachedStatuses slot).lookup m = none) :
    is_model_available m cache = true := by
  cases hc : cache.modelStatus with
  | none => simp [is_model_available, hc]
  | some slot =>
      have := h slot (by simp [hc])
      simp [is_model_available, hc, this]

/-- Witness for C7: with only `grok-3` marked FAILED in the cache, the
never-probed model `o4-mini` is still available. -/
theorem C7_fail_open_default_witness :
    is_model_available "o4-mini" ⟨some (.statuses [("grok-3", "FAILED")])⟩ = true :=
  C7_fail_open_default "o4-mini" ⟨some (.statuses [("grok-3", "FAILED")])⟩
    (by intro slot hs; simp at hs; subst hs; decide)

/-- C10: when the cache has no `model_status` entry,
`set_model_failed_in_cache` is a no-op and `is_model_available` still
returns `true` for the supposedly failed model. -/
theorem C10_markFailed_noop_without_entry (m : String) (cache : Cache)
    (h : cache.modelStatus = none) :
    set_model_failed_in_cache m cache = cache ∧
    is_model_available m (set_model_failed_in_cache m cache) = true := by
  constructor
  · simp [set_model_failed_in_cache, h]
  · simp [set_model_failed_in_cache, is_model_available, h]

/-- Witness for C10 at the empty cache and model `grok-3`. -/
theorem C10_markFailed_noop_without_entry_witness :
    set_model_failed_in_cache "grok-3" ⟨none⟩ = (⟨none⟩ : Cache) ∧
    is_model_available "grok-3" (set_model_failed_in_cache "grok-3" ⟨none⟩) = true :=
  C10_markFailed_noop_without_entry "grok-3" ⟨none⟩ rfl

/-- C2 (code bug, failing input): `grok-3` is marked FAILED by the
runtime circuit breaker in a fresh (present, empty) registry cache, and
one probe round then runs whose result again reports every model —
`grok-3` included — as `'Timeout'`.  The mark does open the circuit
(`is_model_available` is `false`), but the probe round's `last_report`
write (system_service.py line 123) evicts the statuses it installed on
line 122 from the maxsize-1 TTL cache, so after the round the registry
holds only the report and `is_model_available "grok-3"` is `true` again
— even though no probe ever reported it OK, contradicting the claimed
stays-false-until-OK-probe behaviour. -/
theorem C2_failed_probe_round_restores_availability :
    is_model_available "grok-3"
      (set_model_failed_in_cache "grok-3" ⟨some .empty⟩) = false ∧
    apply_probe_results (fun _ => "Timeout") "report"
        (set_model_failed_in_cache "grok-3" ⟨some .empty⟩)
      = ⟨some (.lastReport "report")⟩ ∧
    is_model_available "grok-3"
      (apply_probe_results (fun _ => "Timeout") "report"
        (set_model_failed_in_cache "grok-3" ⟨some .empty⟩)) = true :=
  ⟨rfl, rfl, rfl⟩

/-! ## Claim theorems: quota limits resolution -/

/-- C6: `get_user_limits` resolves in priority order — an administrative
identity gets unlimited quotas (and no downgrade write); an expired
positive tier is lazily downgraded to tier 0 with the write-back issued,
after which the tier-0 bonus override applies; a resolved tier-0 user
with the bonus flag gets `(REWARD_LIMIT, 0)`; otherwise the static
`LIMITS` table applies. -/
theorem C6_limits_resolution_order (isAdmin : Bool) (user : Option UserRow)
    (parseIso : String → Option Int) (now : Int) :
    (isAdmin = true →
      get_user_limits isAdmin user parseIso now
        = ((.unlimited, .unlimited), false)) ∧
    (∀ u endStr endDate, isAdmin = false → user = some u →
      u.subscriptionEnd = some endStr → endStr ≠ "" → 0 < u.level →
      parseIso endStr = some endDate → endDate < now →
      get_user_limits isAdmin user parseIso now
        = ((if u.hasRewardedBonus then (Quota.finite REWARD_LIMIT, Quota.finite 0)
            else (Quota.finite 3, Quota.finite 0)), true)) ∧
    (isAdmin = false → (get_user_level isAdmin user parseIso now).1 = 0 →
      userHasBonus user = true →
      (get_user_limits isAdmin user parseIso now).1
        = (Quota.finite REWARD_LIMIT, Quota.finite 0)) ∧
    (isAdmin = false →
      ¬((get_user_level isAdmin user parseIso now).1 = 0 ∧ userHasBonus user = true) →
      (get_user_limits isAdmin user parseIso now).1
        = (Quota.finite (LIMITS (get_user_level isAdmin user parseIso now).1).1,
           Quota.finite (LIMITS (get_user_level isAdmin user parseIso now).1).2)) := by
  refine ⟨?_, ?_, ?_, ?_⟩
  · intro h
    subst h
    simp [get_user_limits, get_user_level]
  · intro u endStr endDate hadm huser hend hne hlvl hp hlt
    subst hadm huser
    have hlv : get_user_level false (some u) parseIso now = (0, true) := by
      simp [get_user_level, hend, hne, hlvl, hp, hlt]
    cases hb : u.hasRewardedBonus <;>
      simp [get_user_limits, hlv, userHasBonus, hb, LIMITS]
  · intro hadm hlv hb
    subst hadm
    simp [get_user_limits, hlv, hb]
  · intro hadm hnot
    subst hadm
    by_cases hlv : (get_user_level false user parseIso now).1 = 0
    · have hb : userHasBonus user = false := by
        cases hb : userHasBonus user
        · rfl
        · exact absurd ⟨hlv, hb⟩ hnot
      simp [get_user_limits, hlv, hb]
    · have : ((get_user_level false user parseIso now).1 == 0) = false := by
        simp [hlv]
      simp [get_user_limits, this]

/-- Witness for C6: a non-admin tier-1 user whose subscription expired at
instant 0, observed at instant 100, holding the bonus flag, resolves to
the bonus limits `(7, 0)` and triggers the downgrade write-back. -/
theorem C6_limits_resolution_order_witness :
    get_user_limits false (some ⟨1, some "2024-01-01", false, true⟩)
      (fun _ => some 0) 100
      = ((Quota.finite 7, Quota.finite 0), true) := by
  have h := (C6_limits_resolution_order false
      (some ⟨1, some "2024-01-01", false, true⟩) (fun _ => some 0) 100).2.1
      ⟨1, some "2024-01-01", false, true⟩ "2024-01-01" 0
      rfl rfl rfl (by decide) (by decide) rfl (by decide)
  simpa [REWARD_LIMIT] using h

/-! ## Claim theorems: quota ledger day rollover -/

theorem filter_matchesToday_only_today (db : List RequestRow)
    (userId : Nat) (today : Int) (isMaxMode : Bool) :
    db.filter (matchesToday userId today isMaxMode)
      = (db.filter (fun r => r.requestDate == today)).filter
          (matchesToday userId today isMaxMode) := by
  induction db with
  | nil => rfl
  | cons r rest ih =>
      by_cases hd : r.requestDate = today
      · have hdb : (r.requestDate == today) = true := by simp [hd]
        cases hmt : matchesToday userId today isMaxMode r <;>
          simp [List.filter_cons, hdb, hmt, ih]
      · have hdb : (r.requestDate == today) = false := by simp [hd]
        have hmf : matchesToday userId today isMaxMode r = false := by
          simp [matchesToday, hdb]
        simp [List.filter_cons, hdb, hmf, ih]

/-- C8: `get_user_requests_today` is day-keyed — it counts exactly the
rows whose recorded MSK date equals today's, a request recorded under a
different day key contributes zero to today's total (implicit rollover,
no reset job), and an accepted request recorded today for the same
user/mode increments the total by exactly one. -/
theorem C8_day_keyed_rollover (db : List RequestRow) (userId otherId : Nat)
    (today otherDay : Int) (model : String) (isMaxMode : Bool) :
    (get_user_requests_today db userId today isMaxMode
      = get_user_requests_today (db.filter (fun r => r.requestDate == today))
          userId today isMaxMode) ∧
    (otherDay ≠ today →
      get_user_requests_today (add_request db otherId model otherDay isMaxMode)
          userId today isMaxMode
        = get_user_requests_today db userId today isMaxMode) ∧
    (get_user_requests_today (add_request db userId model today isMaxMode)
        userId today isMaxMode
      = get_user_requests_today db userId today isMaxMode + 1) := by
  refine ⟨?_, ?_, ?_⟩
  · unfold get_user_requests_today
    rw [filter_matchesToday_only_today]
  · intro h
    simp [get_user_requests_today, add_request, List.filter_append,
      matchesToday, h]
  · simp [get_user_requests_today, add_request, List.filter_append,
      matchesToday]

/-- Witness for C8: a request recorded on day 0 adds nothing to user 7's
count for day 1. -/
theorem C8_day_keyed_rollover_witness :
    get_user_requests_today (add_request [] 7 "gpt-4.1" 0 false) 7 1 false
      = get_user_requests_today [] 7 1 false :=
  (C8_day_keyed_rollover [] 7 7 1 0 "gpt-4.1" false).2.1 (by decide)

/-! ## Claim theorems: ensemble orchestrator -/

/-- C4: when every participant answer counts as an error (starts with
the `"ОШИБКА:"` tag), `get_max_mode_response` raises the
all-participants-failed `RuntimeError` and never calls the arbiter. -/
theorem C4_all_failed_skips_arbiter (outcomes : String → CallOutcome)
    (arbiter : CallOutcome)
    (h : ∀ m ∈ MAX_MODE_PARTICIPANTS,
      startswith "ОШИБКА:" (participantAnswer (outcomes m)) = true) :
    (get_max_mode_response outcomes arbiter).result
        = .error ALL_FAILED_MESSAGE ∧
    (get_max_mode_response outcomes arbiter).arbiterCalled = false := by
  have hz : successfulCount outcomes = 0 := by
    unfold successfulCount participantResults
    rw [List.countP_eq_zero]
    intro a ha
    rw [List.mem_map] at ha
    obtain ⟨m, hm, rfl⟩ := ha
    simp [h m hm]
  constructor <;> simp [get_max_mode_response, hz]

/-- Witness for C4: every participant raising `APIError` yields the
all-failed error with no arbiter call, even though the arbiter itself
would have answered. -/
theorem C4_all_failed_skips_arbiter_witness :
    (get_max_mode_response (fun _ => .exc "APIError") (.text "ответ")).result
        = .error ALL_FAILED_MESSAGE ∧
    (get_max_mode_response (fun _ => .exc "APIError") (.text "ответ")).arbiterCalled
        = false :=
  C4_all_failed_skips_arbiter (fun _ => .exc "APIError") (.text "ответ")
    (by
      have hx : startswith "ОШИБКА:"
          (participantAnswer (CallOutcome.exc "APIError")) = true := by decide
      intro m _
      exact hx)

/-- C3 counterexample: participant `grok-3` yields a non-text (empty
content) response; in the synthesis material it is represented by the
empty string, which is not a placeholder error string (it does not carry
the `"ОШИБКА:"` tag), and the run still synthesizes normally. -/
theorem C3_counterexample_non_text_no_placeholder :
    ((get_max_mode_response
        (fun m => if m == "grok-3" then CallOutcome.noContent
          else CallOutcome.text "42")
        (CallOutcome.text "итог")).results.lookup "grok-3" = some "") ∧
    (startswith "ОШИБКА:" "") = false ∧
    (get_max_mode_response
        (fun m => if m == "grok-3" then CallOutcome.noContent
          else CallOutcome.text "42")
        (CallOutcome.text "итог")).result = .ok "итог" := by
  refine ⟨by decide, by decide, ?_⟩
  rfl

/-- C3 (amended): a participant whose call raises an exception is
represented by the placeholder error string tagged with the exception
type name and its failure is never propagated; a participant yielding a
non-text response is represented by the empty string (counted as
successful, not as a failure); whenever at least one participant answer
does not carry the error tag and the arbiter returns text, the run
returns the arbiter's synthesis and the meta-prompt carries one labeled
block per participant, placeholders included. -/
theorem C3_participant_isolation (outcomes : String → CallOutcome) (s : String)
    (h : ∃ m ∈ MAX_MODE_PARTICIPANTS,
      startswith "ОШИБКА:" (participantAnswer (outcomes m)) = false) :
    (get_max_mode_response outcomes (.text s)).result = .ok s ∧
    (get_max_mode_response outcomes (.text s)).arbiterCalled = true ∧
    (get_max_mode_response outcomes (.text s)).results
      = MAX_MODE_PARTICIPANTS.map (fun m => (m, participantAnswer (outcomes m))) ∧
    (get_max_mode_response outcomes (.text s)).promptLines
      = (MAX_MODE_PARTICIPANTS.map
          (fun m => (m, participantAnswer (outcomes m)))).map
            (fun r => participantLine r.1 r.2) ∧
    (∀ n, participantAnswer (.exc n)
      = "ОШИБКА: Модель не смогла обработать запрос. (" ++ n ++ ")") ∧
    participantAnswer .noContent = "" := by
  obtain ⟨m, hm, hfalse⟩ := h
  have hnz : successfulCount outcomes ≠ 0 := by
    intro hz
    unfold successfulCount participantResults at hz
    rw [List.countP_eq_zero] at hz
    have := hz (m, participantAnswer (outcomes m))
      (List.mem_map_of_mem _ hm)
    simp [hfalse] at this
  have hbeq : (successfulCount outcomes == 0) = false := by
    simpa using hnz
  refine ⟨?_, ?_, ?_, ?_, fun n => rfl, rfl⟩ <;>
    simp [get_max_mode_response, hbeq, simpleResponseText, participantResults]

/-- Witness for C3 (amended): with `grok-3` raising `APIError` and the
other five participants answering, the run returns the arbiter's text. -/
theorem C3_participant_isolation_witness :
    (get_max_mode_response
        (fun m => if m == "grok-3" then CallOutcome.exc "APIError"
          else CallOutcome.text "Париж")
        (CallOutcome.text "финал")).result = .ok "финал" :=
  (C3_participant_isolation
      (fun m => if m == "grok-3" then CallOutcome.exc "APIError"
        else CallOutcome.text "Париж")
      "финал"
      ⟨"gpt-4.1", by decide, by decide⟩).1

/-! ## Claim theorems: handlers -/

/-- C1: in both modes, `db.add_request` runs exactly when the admission
check passed (recorded count strictly below the resolved limit) and the
dispatched backend call completed successfully; when the count has
reached the limit the request is rejected with no backend call and no
usage record, and a raising backend call records nothing. -/
theorem C1_record_iff_admitted_and_success
    (blocked : Bool) (dailyLimit : Quota) (requestsToday : Nat)
    (modelAvailable : Bool) (backend : BackendCall)
    (mAvailable : Bool) (maxModeLimit : Quota) (mRequestsToday : Nat)
    (mBackend : BackendCall) :
    ((handle_chat_message blocked dailyLimit requestsToday modelAvailable
        backend).addRequestCalled = true ↔
      (quotaReached requestsToday dailyLimit = false ∧
       (handle_chat_message blocked dailyLimit requestsToday modelAvailable
          backend).backendCalled = true ∧
       ∃ s, backend = .success s)) ∧
    (quotaReached requestsToday dailyLimit = true →
      (handle_chat_message blocked dailyLimit requestsToday modelAvailable
          backend).addRequestCalled = false ∧
      (handle_chat_message blocked dailyLimit requestsToday modelAvailable
          backend).backendCalled = false) ∧
    ((handle_max_mode_message mAvailable maxModeLimit mRequestsToday
        mBackend).addRequestCalled = true ↔
      (quotaReached mRequestsToday maxModeLimit = false ∧
       (handle_max_mode_message mAvailable maxModeLimit mRequestsToday
          mBackend).backendCalled = true ∧
       ∃ s, mBackend = .success s)) ∧
    (quotaReached mRequestsToday maxModeLimit = true →
      (handle_max_mode_message mAvailable maxModeLimit mRequestsToday
          mBackend).addRequestCalled = false ∧
      (handle_max_mode_message mAvailable maxModeLimit mRequestsToday
          mBackend).backendCalled = false) := by
  refine ⟨?_, ?_, ?_, ?_⟩
  · cases hq : quotaReached requestsToday dailyLimit <;>
      cases blocked <;> cases modelAvailable <;> cases backend <;>
        simp [handle_chat_message, hq]
  · intro hq
    cases blocked <;> cases modelAvailable <;> cases backend <;>
      simp [handle_chat_message, hq]
  · cases hq : quotaReached mRequestsToday maxModeLimit <;>
      cases mAvailable <;> cases mBackend <;>
        simp [handle_max_mode_message, hq]
  · intro hq
    cases mAvailable <;> cases mBackend <;>
      simp [handle_max_mode_message, hq]

/-- Witness for C1: a tier-0 user with daily limit 3 who already made 3
requests today has the 4th rejected — no backend call, no usage
recorded — even though the backend would have succeeded. -/
theorem C1_record_iff_admitted_and_success_witness :
    (handle_chat_message false (.finite 3) 3 true
        (.success "ответ")).addRequestCalled = false ∧
    (handle_chat_message false (.finite 3) 3 true
        (.success "ответ")).backendCalled = false :=
  (C1_record_iff_admitted_and_success false (.finite 3) 3 true
      (.success "ответ") true (.finite 5) 0 (.success "x")).2.1 (by decide)

/-- C9: in both message handlers the `animate_waiting` background task
is cancelled on every exit path on which it was started — success,
handled provider/runtime error, and unexpected exception alike. -/
theorem C9_animation_always_cancelled
    (blocked : Bool) (dailyLimit : Quota) (requestsToday : Nat)
    (modelAvailable : Bool) (backend : BackendCall)
    (mAvailable : Bool) (maxModeLimit : Quota) (mRequestsToday : Nat)
    (mBackend : BackendCall) :
    ((handle_chat_message blocked dailyLimit requestsToday modelAvailable
        backend).animationCancelled
      = (handle_chat_message blocked dailyLimit requestsToday modelAvailable
          backend).animationStarted) ∧
    ((handle_max_mode_message mAvailable maxModeLimit mRequestsToday
        mBackend).animationCancelled
      = (handle_max_mode_message mAvailable maxModeLimit mRequestsToday
          mBackend).animationStarted) := by
  constructor
  · cases hq : quotaReached requestsToday dailyLimit <;>
      cases blocked <;> cases modelAvailable <;> cases backend <;>
        simp [handle_chat_message, hq]
  · cases hq : quotaReached mRequestsToday maxModeLimit <;>
      cases mAvailable <;> cases mBackend <;>
        simp [handle_max_mode_message, hq]

end MiniArima
